import Mathlib

/-!
Verification of the chaos-profiler core (`src/profile_operators.py`) against
its natural-language specification.

The Python source is shallowly embedded below.  Machine integers are modelled
as `Int` (Python integers are unbounded, so no wrap-around is needed), Python
`None`-able values as `Option`, and the external `tracemalloc` collaborator is
modelled at the interface boundary described in the spec (snapshots carry a
list of traces; filtering, grouping and diffing are implemented with the
semantics documented for the tracer).  Python renders byte sizes as the float
`size / 1024`; decimal rendering of floats is outside a shallow integer
embedding, so the formatter is an explicit parameter of the rendering
environment (`Env.fdiv`), as is the `linecache` source-line table
(`Env.getlineDb`).
-/

namespace Profiler

set_option maxRecDepth 100000

/-- Frame of a traceback: a source location `(filename, lineno)`. -/
structure Frame where
  filename : String
  lineno : Int
deriving DecidableEq

/-- Traceback of a grouped statistic.  The Python code only ever reads
`traceback[0]` and `traceback.total_nframe`, so the model keeps exactly
those two observations. -/
structure Traceback where
  frame0 : Frame
  total_nframe : Int
deriving DecidableEq

/-- Result record of `Snapshot.statistics`: a grouped allocation statistic. -/
structure Statistic where
  traceback : Traceback
  size : Int
  count : Int
deriving DecidableEq

/-- Result record of `Snapshot.compare_to`: a grouped allocation delta. -/
structure StatisticDiff where
  traceback : Traceback
  size : Int
  size_diff : Int
  count : Int
  count_diff : Int
deriving DecidableEq

/-- Raw allocation trace held by a snapshot.  The code accesses only the
first frame of a trace's traceback, so a trace is modelled with a single
source location, its block size and its frame count. -/
structure Trace where
  filename : String
  lineno : Int
  size : Int
  nframe : Int
deriving DecidableEq

/-- Point-in-time capture from the tracer: the list of live traces. -/
structure Snapshot where
  traces : List Trace
deriving DecidableEq

/-- Filter rule passed to `Snapshot.filter_traces` (tracemalloc `Filter`):
an include/exclude flag plus a filename pattern. -/
structure PyFilter where
  inclusive : Bool
  filename_pattern : String
deriving DecidableEq

/-- Pattern match used by the tracer's filters.  The profiler only ever
passes wildcard-free patterns (module paths and literal pseudo-filenames),
for which `fnmatch` coincides with string equality. -/
def fnmatch (filename pattern : String) : Bool :=
  filename == pattern

/-- A trace survives `filter_traces` if it matches at least one include rule
(when any include rules exist) and matches no exclude rule. -/
def keepTrace (filters : List PyFilter) (t : Trace) : Bool :=
  (!(filters.any (·.inclusive)) ||
      filters.any (fun f => f.inclusive && fnmatch t.filename f.filename_pattern)) &&
    !(filters.any (fun f => !f.inclusive && fnmatch t.filename f.filename_pattern))

/-- Tracer method `Snapshot.filter_traces`. -/
def Snapshot.filter_traces (s : Snapshot) (filters : List PyFilter) : Snapshot :=
  ⟨s.traces.filter (keepTrace filters)⟩

/-- Stable insertion used by `sortBy`. -/
def insertBy (le : α → α → Bool) (a : α) : List α → List α
  | [] => [a]
  | b :: t => if le a b then a :: b :: t else b :: insertBy le a t

/-- Insertion sort with a boolean comparator, modelling Python's `list.sort`
with a sort key (the tracer sorts its grouped output). -/
def sortBy (le : α → α → Bool) (l : List α) : List α :=
  l.foldr (insertBy le) []

/-- Group key of a trace under a tracemalloc grouping key: grouping by
`"filename"` erases the line number, the other keys keep the full location
(traces here carry a single frame). -/
def traceGroupKey (key : String) (t : Trace) : Frame :=
  if key == "filename" then ⟨t.filename, 0⟩ else ⟨t.filename, t.lineno⟩

/-- Accumulate a trace into the grouped statistics association list,
keeping first-seen group order (tracemalloc accumulates into a dict). -/
def addTrace (key : String) (acc : List Statistic) (t : Trace) : List Statistic :=
  let k := traceGroupKey key t
  if acc.any (fun st => st.traceback.frame0 == k) then
    acc.map (fun st =>
      if st.traceback.frame0 == k then
        { st with size := st.size + t.size, count := st.count + 1,
                  traceback := ⟨st.traceback.frame0, st.traceback.total_nframe + t.nframe⟩ }
      else st)
  else
    acc ++ [{ traceback := ⟨k, t.nframe⟩, size := t.size, count := 1 }]

/-- Descending comparison on tracemalloc's `Statistic._sort_key`
`(size, count)`. -/
def statGE (a b : Statistic) : Bool :=
  b.size < a.size || (a.size == b.size && b.count ≤ a.count)

/-- Tracer method `Snapshot.statistics(key)`: group the traces by the key and
sort the groups descending by size (spec section 6: pre-sorted descending). -/
def Snapshot.statistics (s : Snapshot) (key : String) : List Statistic :=
  sortBy statGE (s.traces.foldl (addTrace key) [])

/-- Descending comparison on tracemalloc's `StatisticDiff._sort_key`
`(abs size_diff, size, abs count_diff, count)`. -/
def diffGE (a b : StatisticDiff) : Bool :=
  b.size_diff.natAbs < a.size_diff.natAbs ||
    (a.size_diff.natAbs == b.size_diff.natAbs &&
      (b.size < a.size || (a.size == b.size &&
        (b.count_diff.natAbs < a.count_diff.natAbs ||
          (a.count_diff.natAbs == b.count_diff.natAbs && b.count ≤ a.count)))))

/-- Tracer method `Snapshot.compare_to(old_snapshot, key)`.  Per tracemalloc's
documented semantics `self` is the NEW snapshot and the argument the OLD one:
each group's `size_diff` is `self`'s size minus `old_snapshot`'s size (0 when
the group is absent on one side), and the result is sorted descending by
absolute delta.  Group identity is the traceback's frames (tracemalloc's
`Traceback.__eq__` compares frames only, not `total_nframe`). -/
def Snapshot.compare_to (self old_snapshot : Snapshot) (key : String) : List StatisticDiff :=
  let ns := self.statistics key
  let os := old_snapshot.statistics key
  let kept := ns.map (fun n =>
    let o := os.find? (fun o => o.traceback.frame0 == n.traceback.frame0)
    { traceback := n.traceback, size := n.size,
      size_diff := n.size - ((o.map (·.size)).getD 0),
      count := n.count,
      count_diff := n.count - ((o.map (·.count)).getD 0) })
  let dead := (os.filter (fun o => !(ns.any (fun n => n.traceback.frame0 == o.traceback.frame0)))).map
    (fun o => { traceback := o.traceback, size := 0, size_diff := -o.size,
                count := 0, count_diff := -o.count })
  sortBy diffGE (kept ++ dead)

/-- Index at which a Python slice bound `n` cuts a list of length `len`:
non-negative bounds clamp to the length, negative bounds count from the end
and clamp to 0. -/
def pySliceIdx (len : Nat) (n : Int) : Nat :=
  if 0 ≤ n then min n.toNat len else ((len : Int) + n).toNat

/-- Python `l[:n]`. -/
def pyTake (l : List α) (n : Int) : List α :=
  l.take (pySliceIdx l.length n)

/-- Python `l[n:]`. -/
def pyDrop (l : List α) (n : Int) : List α :=
  l.drop (pySliceIdx l.length n)

/-- Python `str.strip()`: remove leading and trailing whitespace.  Written
by structural recursion on the character list so that it evaluates inside
the kernel. -/
def pyStrip (s : String) : String :=
  ⟨((s.data.dropWhile Char.isWhitespace).reverse.dropWhile Char.isWhitespace).reverse⟩

/-- Python `sep.join(parts)`. -/
def pyJoin (sep : String) : List String → String
  | [] => ""
  | [a] => a
  | a :: rest => a ++ sep ++ pyJoin sep rest

/-- Python `str(b)` for a bool. -/
def pyBool (b : Bool) : String :=
  if b then "True" else "False"

/-- Single-quote character used by Python's list repr (written by code point
to keep the source free of quote-literal pitfalls). -/
def pyQuote : String :=
  String.singleton (Char.ofNat 39)

/-- Python `str(l)` for a list of strings: the repr `[.., ..]` with
single-quoted elements. -/
def pyReprList (l : List String) : String :=
  "[" ++ pyJoin ", " (l.map (fun s => pyQuote ++ s ++ pyQuote)) ++ "]"

/-- Whether the first list is an initial segment of the second. -/
def leadsWith : List Char → List Char → Bool
  | [], _ => true
  | _ :: _, [] => false
  | a :: as, b :: bs => a == b && leadsWith as bs

/-- Helper for `countOccur`: occurrences of `pat` starting at each suffix. -/
def countOccurAux (pat : List Char) : List Char → Nat
  | [] => 0
  | a :: rest => (if leadsWith pat (a :: rest) then 1 else 0) + countOccurAux pat rest

/-- Number of (possibly overlapping) occurrences of the pattern `pat` in the
string `s`, used to state how many times a section appears in a rendered
report. -/
def countOccur (pat s : String) : Nat :=
  countOccurAux pat.data s.data

/-- Substring containment: `s` contains `pat`. -/
def containsStr (s pat : String) : Prop :=
  ∃ pre post, s = pre ++ pat ++ post

/-- Rendering environment: the two external effects used while rendering.
`fdiv n` is Python's decimal rendering of the float `n / 1024`; `getlineDb`
is the `linecache` table, `none` when the source line is unavailable. -/
structure Env where
  fdiv : Int → String
  getlineDb : String → Int → Option String

/-- Python's `linecache.getline`: returns the source line, or the EMPTY
string when the file or line is unavailable — it never returns `None`. -/
def linecache_getline (env : Env) (filename : String) (lineno : Int) : Option String :=
  some ((env.getlineDb filename lineno).getD "")

/-- Enum `TraceKeyType` from the source. -/
inductive TraceKeyType where
  | FILENAME
  | LINE_NUM
  | TRACEBACK
deriving DecidableEq, Inhabited

/-- Enum member `.value` (the tracer grouping key string). -/
def TraceKeyType.value : TraceKeyType → String
  | .FILENAME => "filename"
  | .LINE_NUM => "lineno"
  | .TRACEBACK => "traceback"

/-- Enum member `.name`, as rendered by the settings banner. -/
def TraceKeyType.pyName : TraceKeyType → String
  | .FILENAME => "FILENAME"
  | .LINE_NUM => "LINE_NUM"
  | .TRACEBACK => "TRACEBACK"

/-- The target callable: its `str()` label and its effect on the traced
memory state (the list of live traces) when invoked. -/
structure PyFunc where
  label : String
  run : List Trace → List Trace

instance : Inhabited PyFunc := ⟨⟨"", id⟩⟩

/-- Dataclass `ProfileRunSettings`. -/
structure ProfileRunSettings where
  func : PyFunc
  func_file_names : List String
  run_count : Int := 3
  key_type : TraceKeyType := .LINE_NUM
  limit : Int := 10
  exclusive_filter : Bool := true

instance : Inhabited ProfileRunSettings := ⟨⟨default, [], 3, .LINE_NUM, 10, true⟩⟩

/-- Exception named by the spec for out-of-range settings.  No such type
appears anywhere in the source. -/
inductive InvalidConfiguration where
  | mk
deriving DecidableEq

/-- Constructor of `ProfileRunSettings`.  The dataclass-generated `__init__`
only stores the fields and performs no checks, so the embedded constructor
(wrapped in `Except` so that the spec's claimed failure is statable) always
returns `Except.ok`. -/
def mkProfileRunSettings (func : PyFunc) (func_file_names : List String)
    (run_count : Int) (key_type : TraceKeyType) (limit : Int)
    (exclusive_filter : Bool) : Except InvalidConfiguration ProfileRunSettings :=
  .ok ⟨func, func_file_names, run_count, key_type, limit, exclusive_filter⟩

/-- Class `StatisticRun`: one ranked allocation record. -/
structure StatisticRun where
  position : Nat
  statistic : Statistic

/-- `StatisticRun.__init__`: stores `position + 1` (1-based rank). -/
def StatisticRun.make (position : Nat) (statistic : Statistic) : StatisticRun :=
  ⟨position + 1, statistic⟩

/-- `StatisticRun.file_trace`. -/
def StatisticRun.file_trace (env : Env) (st : StatisticRun) : String :=
  let frame := st.statistic.traceback.frame0
  "\t#" ++ toString st.position ++ ": " ++ env.fdiv st.statistic.size ++ "KiB -> " ++
    frame.filename ++ ":" ++ toString frame.lineno ++
    " (traces: " ++ toString st.statistic.traceback.total_nframe ++ ")"

/-- `StatisticRun.line_trace`.  The Python body is
`line = linecache.getline(...).strip(); return f"\t\t{line}" if line is not
None else None`: `getline` yields a `str` (possibly empty), never `None`,
so the `None` branch is dead. -/
def StatisticRun.line_trace (env : Env) (st : StatisticRun) : Option String :=
  let frame := st.statistic.traceback.frame0
  match (linecache_getline env frame.filename frame.lineno).map pyStrip with
  | some line => some ("\t\t" ++ line)
  | none => none

/-- `StatisticRun.__str__`. -/
def StatisticRun.str (env : Env) (st : StatisticRun) : String :=
  match st.line_trace env with
  | some lt => st.file_trace env ++ "\n" ++ lt
  | none => st.file_trace env

/-- Class `StatisticDiffRun`: one ranked allocation-delta record. -/
structure StatisticDiffRun where
  position : Nat
  statistic : StatisticDiff

/-- `StatisticDiffRun.__init__`: stores `position + 1` (1-based rank). -/
def StatisticDiffRun.make (position : Nat) (statistic : StatisticDiff) : StatisticDiffRun :=
  ⟨position + 1, statistic⟩

/-- `StatisticDiffRun.file_trace` (renders `size_diff`). -/
def StatisticDiffRun.file_trace (env : Env) (st : StatisticDiffRun) : String :=
  let frame := st.statistic.traceback.frame0
  "\t#" ++ toString st.position ++ ": " ++ env.fdiv st.statistic.size_diff ++ "KiB -> " ++
    frame.filename ++ ":" ++ toString frame.lineno ++
    " (traces: " ++ toString st.statistic.traceback.total_nframe ++ ")"

/-- `StatisticDiffRun.line_trace` (same dead `None` branch as
`StatisticRun.line_trace`). -/
def StatisticDiffRun.line_trace (env : Env) (st : StatisticDiffRun) : Option String :=
  let frame := st.statistic.traceback.frame0
  match (linecache_getline env frame.filename frame.lineno).map pyStrip with
  | some line => some ("\t\t" ++ line)
  | none => none

/-- `StatisticDiffRun.__str__`. -/
def StatisticDiffRun.str (env : Env) (st : StatisticDiffRun) : String :=
  match st.line_trace env with
  | some lt => st.file_trace env ++ "\n" ++ lt
  | none => st.file_trace env

/-- Path of the `tracemalloc` module in the running interpreter
(`tracemalloc.__file__`), used by the inclusive deny-list; its exact value
is environment-dependent and irrelevant to the claims. -/
def tracemalloc_file : String := "/usr/lib/python3.11/tracemalloc.py"

/-- Class `SnapshotRun`: one captured snapshot with its iteration index and
the active settings. -/
structure SnapshotRun where
  iteration : Nat
  snapshot : Snapshot
  settings : ProfileRunSettings

instance : Inhabited SnapshotRun := ⟨⟨0, ⟨[]⟩, default⟩⟩

/-- `SnapshotRun.__inclusive_filtered`: deny-list of tracer-internal,
import-machinery and unknown frames. -/
def SnapshotRun.inclusive_filtered (sr : SnapshotRun) : Snapshot :=
  sr.snapshot.filter_traces
    [⟨false, tracemalloc_file⟩,
     ⟨false, "<frozen importlib._bootstrap>"⟩,
     ⟨false, "<unknown>"⟩]

/-- `SnapshotRun.__exclusive_filtered`: allow-list of the target files. -/
def SnapshotRun.exclusive_filtered (sr : SnapshotRun) : Snapshot :=
  sr.snapshot.filter_traces
    (sr.settings.func_file_names.map (fun n => ⟨true, n⟩))

/-- `SnapshotRun.filtered_snapshot`. -/
def SnapshotRun.filtered_snapshot (sr : SnapshotRun) : Snapshot :=
  if sr.settings.exclusive_filter then sr.exclusive_filtered else sr.inclusive_filtered

/-- `SnapshotRun.top_stats`: first `limit` grouped statistics (Python slice
`[:limit]`), enumerated into 1-based ranks. -/
def SnapshotRun.top_stats (sr : SnapshotRun) : List StatisticRun :=
  (pyTake (sr.filtered_snapshot.statistics sr.settings.key_type.value)
      sr.settings.limit).enum.map (fun p => StatisticRun.make p.1 p.2)

/-- `SnapshotRun.remaining_stats`: the rest (Python slice `[limit:]`),
enumerated into 1-based ranks starting again at 1. -/
def SnapshotRun.remaining_stats (sr : SnapshotRun) : List StatisticRun :=
  (pyDrop (sr.filtered_snapshot.statistics sr.settings.key_type.value)
      sr.settings.limit).enum.map (fun p => StatisticRun.make p.1 p.2)

/-- `SnapshotRun.__total_size_line`: empty string for an empty entry list,
otherwise the summed size in KiB. -/
def total_size_line (env : Env) (stats : List StatisticRun) : String :=
  if 0 < stats.length then
    env.fdiv (stats.foldl (fun acc st => acc + st.statistic.size) 0) ++ " KiB"
  else ""

/-- `SnapshotRun.top_stats_summary`. -/
def SnapshotRun.top_stats_summary (env : Env) (sr : SnapshotRun) : String :=
  total_size_line env (sr.top_stats)

/-- `SnapshotRun.remaining_stats_summary`. -/
def SnapshotRun.remaining_stats_summary (env : Env) (sr : SnapshotRun) : String :=
  total_size_line env (sr.remaining_stats)

/-- `SnapshotRun.__str__`. -/
def SnapshotRun.str (env : Env) (sr : SnapshotRun) : String :=
  let title :=
    if sr.iteration ≠ 0 then "\n## Snapshot Run #" ++ toString sr.iteration
    else "\n## Snapshot Before Run"
  pyJoin "\n"
    [title,
     "### Top " ++ toString sr.settings.limit ++ " Memory Hogs:",
     pyJoin "\n" (sr.top_stats.map (StatisticRun.str env)),
     "\n### Summary:",
     "\tTop Total Size: " ++ sr.top_stats_summary env,
     "\tRemaining Total Size: " ++ sr.remaining_stats_summary env]

/-- Class `SnapshotDiffRun`: the delta between two snapshots. -/
structure SnapshotDiffRun where
  iterations : Nat × Nat
  diff : List StatisticDiff
  limit : Int := 10

/-- `SnapshotDiffRun.top_stats`. -/
def SnapshotDiffRun.top_stats (sd : SnapshotDiffRun) : List StatisticDiffRun :=
  (pyTake sd.diff sd.limit).enum.map (fun p => StatisticDiffRun.make p.1 p.2)

/-- `SnapshotDiffRun.remaining_stats`. -/
def SnapshotDiffRun.remaining_stats (sd : SnapshotDiffRun) : List StatisticDiffRun :=
  (pyDrop sd.diff sd.limit).enum.map (fun p => StatisticDiffRun.make p.1 p.2)

/-- `SnapshotDiffRun.__total_size_line` (sums `size_diff`). -/
def total_size_diff_line (env : Env) (stats : List StatisticDiffRun) : String :=
  if 0 < stats.length then
    env.fdiv (stats.foldl (fun acc st => acc + st.statistic.size_diff) 0) ++ " KiB"
  else ""

/-- `SnapshotDiffRun.top_stats_summary`. -/
def SnapshotDiffRun.top_stats_summary (env : Env) (sd : SnapshotDiffRun) : String :=
  total_size_diff_line env (sd.top_stats)

/-- `SnapshotDiffRun.remaining_stats_summary`. -/
def SnapshotDiffRun.remaining_stats_summary (env : Env) (sd : SnapshotDiffRun) : String :=
  total_size_diff_line env (sd.remaining_stats)

/-- `SnapshotDiffRun.__str__`. -/
def SnapshotDiffRun.str (env : Env) (sd : SnapshotDiffRun) : String :=
  pyJoin "\n"
    ["\n## Snapshot Comparison between #" ++ toString sd.iterations.1 ++
       " and #" ++ toString sd.iterations.2,
     "### Top " ++ toString sd.limit ++ " Memory Hogs:",
     pyJoin "\n" (sd.top_stats.map (StatisticDiffRun.str env)),
     "\n### Summary:",
     "\tTop Total Size: " ++ sd.top_stats_summary env,
     "\tRemaining Total Size: " ++ sd.remaining_stats_summary env]

/-- Class `ProfileRun`: the whole report. -/
structure ProfileRun where
  snapshot_runs : List SnapshotRun
  func_file_names : List String
  func_name : String

/-- `ProfileRun.__compare`: builds the diff view of `first` against `second`
by calling `first.filtered_snapshot.compare_to(second.filtered_snapshot)`.
Note the `limit` argument is not passed, so it stays at its default 10. -/
def ProfileRun.compare (first second : SnapshotRun) : SnapshotDiffRun :=
  { iterations := (first.iteration, second.iteration),
    diff := first.filtered_snapshot.compare_to second.filtered_snapshot
      first.settings.key_type.value }

/-- `ProfileRun.comparisons`: for every index `i ≠ 0`, the comparison of
`snapshot_runs[i-1]` with `snapshot_runs[i]`. -/
def ProfileRun.comparisons (p : ProfileRun) : List SnapshotDiffRun :=
  ((List.range p.snapshot_runs.length).filter (fun i => i != 0)).map
    (fun i => ProfileRun.compare (p.snapshot_runs.getD (i - 1) default)
      (p.snapshot_runs.getD i default))

/-- `ProfileRun.__str__`. -/
def ProfileRun.str (env : Env) (p : ProfileRun) : String :=
  let settings := (p.snapshot_runs.getD 0 default).settings
  pyJoin "\n"
    ["# Profile Run For " ++ p.func_name,
     "```",
     "SETTINGS\n",
     "- Memory Limit: " ++ toString settings.limit,
     "- Key Type: " ++ settings.key_type.pyName,
     "- Exclusive Filter Set: " ++ pyBool settings.exclusive_filter,
     if settings.exclusive_filter then
       "- File Filters Applied: " ++ pyReprList settings.func_file_names
     else "",
     "```",
     pyJoin "\n" (p.snapshot_runs.map (SnapshotRun.str env)),
     "# Profile Comparisons For " ++ p.func_name,
     pyJoin "\n" (p.snapshot_runs.map (SnapshotRun.str env)),
     "\n# Profile Comparisons For " ++ p.func_name,
     pyJoin "\n" (p.comparisons.map (SnapshotDiffRun.str env))]

/-- Invocation loop of `profile_func`: for each index `i` in the list, invoke
the target function (advancing the traced memory state) and append the
snapshot of the new state. -/
def runLoop (settings : ProfileRunSettings) :
    List Nat → List SnapshotRun × List Trace → List SnapshotRun × List Trace
  | [], acc => acc
  | i :: rest, (runs, st) =>
    let st2 := settings.func.run st
    runLoop settings rest (runs ++ [⟨i, ⟨st2⟩, settings⟩], st2)

/-- `profile_func`: capture the initial snapshot, then for `i` in
`range(1, run_count + 1)` invoke the target and capture snapshot `i`.
`init` is the traced memory state when the tracer starts. -/
def profile_func (settings : ProfileRunSettings) (init : List Trace) : ProfileRun :=
  let initial_snapshot : SnapshotRun := ⟨0, ⟨init⟩, settings⟩
  let res := runLoop settings (List.range' 1 settings.run_count.toNat)
    ([initial_snapshot], init)
  ⟨res.1, settings.func_file_names, settings.func.label⟩

/-! Shared lemmas about the embedding. -/

/-- Ranks produced by enumerating a list into `StatisticRun`s are exactly
`1, 2, ..., length`. -/
theorem enum_make_positions (l : List Statistic) :
    (l.enum.map (fun p => StatisticRun.make p.1 p.2)).map StatisticRun.position =
      List.range' 1 l.length := by
  simp only [List.map_map]
  have h1 : (StatisticRun.position ∘ fun p : Nat × Statistic => StatisticRun.make p.1 p.2) =
      (fun n : Nat => n + 1) ∘ Prod.fst := by
    funext p
    rfl
  rw [h1, ← List.map_map, List.enum_map_fst, List.range'_eq_map_range]
  exact List.map_congr_left fun x _ => Nat.add_comm x 1

/-- Statistics carried by the enumerated `StatisticRun`s are the original
list, element for element. -/
theorem enum_make_stats (l : List Statistic) :
    (l.enum.map (fun p => StatisticRun.make p.1 p.2)).map StatisticRun.statistic = l := by
  simp only [List.map_map]
  have h1 : (StatisticRun.statistic ∘ fun p : Nat × Statistic => StatisticRun.make p.1 p.2) =
      Prod.snd := by
    funext p
    rfl
  rw [h1, List.enum_map_snd]

/-- A Python slice split is a partition: `l[:n] ++ l[n:] = l` for every
integer `n`. -/
theorem pyTake_append_pyDrop (l : List α) (n : Int) :
    pyTake l n ++ pyDrop l n = l :=
  List.take_append_drop _ _

/-- Length of `range n` with `0` removed. -/
theorem filter_ne_zero_range_length (n : Nat) :
    ((List.range n).filter (fun i => i != 0)).length = n - 1 := by
  induction n with
  | zero => rfl
  | succ m ih =>
    rw [List.range_succ, List.filter_append, List.length_append, ih]
    cases m with
    | zero => rfl
    | succ k => simp [List.filter]

/-- The number of comparisons is one less than the number of snapshots. -/
theorem comparisons_length (p : ProfileRun) :
    p.comparisons.length = p.snapshot_runs.length - 1 := by
  rw [ProfileRun.comparisons, List.length_map, filter_ne_zero_range_length]

/-- Closed form of the invocation loop: starting from state `st`, the loop
over indices `k+1, ..., k+m` appends one snapshot per index, snapshot
`k+1+j` capturing the state after `j+1` further invocations, and ends in the
state after `m` further invocations. -/
theorem runLoop_spec (s : ProfileRunSettings) (m : Nat) :
    ∀ (k : Nat) (runs : List SnapshotRun) (st : List Trace),
      runLoop s (List.range' (k + 1) m) (runs, st) =
        (runs ++ (List.range m).map
            (fun j => ⟨k + 1 + j, ⟨s.func.run^[j + 1] st⟩, s⟩),
          s.func.run^[m] st) := by
  induction m with
  | zero => intro k runs st; simp [runLoop]
  | succ m ih =>
    intro k runs st
    rw [List.range'_succ, runLoop, ih (k + 1) _ (s.func.run st)]
    refine Prod.ext ?_ (by simp [Function.iterate_succ_apply])
    simp only [List.append_assoc, List.singleton_append, List.range_succ_eq_map,
      List.map_cons, List.map_map]
    refine congrArg (runs ++ ·) (congrArg (· :: _) ?_ ▸ congrArg _ ?_)
    · rfl
    · refine List.map_congr_left fun j _ => ?_
      simp only [Function.comp_apply, Function.iterate_succ_apply]
      congr 1
      omega

/-- Closed form of `profile_func`: the initial snapshot of the starting
state, then for `j < run_count.toNat` the snapshot of the state after
`j + 1` invocations. -/
theorem profile_func_runs (s : ProfileRunSettings) (init : List Trace) :
    (profile_func s init).snapshot_runs =
      (⟨0, ⟨init⟩, s⟩ : SnapshotRun) ::
        (List.range s.run_count.toNat).map
          (fun j => ⟨j + 1, ⟨s.func.run^[j + 1] init⟩, s⟩) := by
  rw [profile_func]
  simp only [runLoop_spec s s.run_count.toNat 0, List.singleton_append]
  refine congrArg (_ :: ·) (List.map_congr_left fun j _ => ?_)
  congr 1
  omega

/-- Appending a fixed element decomposition: an element of the joined list is
a substring of the join. -/
theorem pyJoin_decomp (sep : String) :
    ∀ (l : List String) (x : String), x ∈ l →
      ∃ pre post, pyJoin sep l = pre ++ x ++ post := by
  intro l
  induction l with
  | nil => intro x hx; cases hx
  | cons a rest ih =>
    intro x hx
    rcases List.mem_cons.mp hx with h | h
    · subst h
      cases rest with
      | nil => exact ⟨"", "", by simp [pyJoin]⟩
      | cons b t =>
        exact ⟨"", sep ++ pyJoin sep (b :: t), by
          simp [pyJoin, String.append_assoc]⟩
    · cases rest with
      | nil => cases h
      | cons b t =>
        obtain ⟨pre, post, hp⟩ := ih x h
        exact ⟨a ++ sep ++ pre, post, by
          simp [pyJoin, hp, String.append_assoc]⟩

/-! Concrete fixtures used by the counterexamples and witnesses. -/

/-- Concrete target function: each invocation allocates one 8-byte block at
`f.py:7`. -/
def targetFn : PyFunc := ⟨"<function work>", fun t => ⟨"f.py", 7, 8, 1⟩ :: t⟩

/-- Concrete rendering environment: a fixed float formatter and an empty
source-line table. -/
def env0 : Env := ⟨fun _ => "0.0", fun _ _ => none⟩

/-! Claim C1. -/

/-- Settings used by the C1 fixture. -/
def settingsC1 : ProfileRunSettings := ⟨targetFn, ["f.py"], 3, .LINE_NUM, 10, true⟩

/-- Snapshot view at iteration 0: the group at `f.py:7` holds 10 bytes. -/
def runC1a : SnapshotRun := ⟨0, ⟨[⟨"f.py", 7, 10, 1⟩]⟩, settingsC1⟩

/-- Snapshot view at iteration 1: the same group now holds 30 bytes. -/
def runC1b : SnapshotRun := ⟨1, ⟨[⟨"f.py", 7, 30, 1⟩]⟩, settingsC1⟩

/-- Report over the two C1 snapshot views. -/
def reportC1 : ProfileRun := ⟨[runC1a, runC1b], ["f.py"], "<function work>"⟩

/-- C1: the claim says a group that GREW between iteration 0 and iteration 1
appears in `comparisons[0]` with a POSITIVE `sizeDeltaBytes`.  On the code
this fails: `__compare` calls `first.filtered_snapshot.compare_to(second…)`
with `first` the EARLIER snapshot, while tracemalloc's `compare_to` treats
`self` as the NEW snapshot, so the delta is computed earlier-minus-later.
Here the `f.py:7` group grows from 10 to 30 bytes, yet `comparisons[0]`
reports `size_diff = -20`. -/
theorem c1_growth_reported_negative :
    ((runC1a.filtered_snapshot.statistics "lineno").map Statistic.size = [10] ∧
      (runC1b.filtered_snapshot.statistics "lineno").map Statistic.size = [30]) ∧
    reportC1.comparisons.map
        (fun d => (d.iterations, d.diff.map StatisticDiff.size_diff)) =
      [((0, 1), [-20])] := by
  exact ⟨⟨by decide, by decide⟩, by decide⟩

/-! Claim C2. -/

/-- Settings used by the C2 counterexample: rank limit 1. -/
def settingsC2 : ProfileRunSettings := ⟨targetFn, ["f.py"], 3, .LINE_NUM, 1, true⟩

/-- Snapshot view with two filtered groups (`f.py:1` of 100 bytes and
`f.py:2` of 50 bytes) and rank limit 1, so one top entry and one remaining
entry. -/
def viewC2 : SnapshotRun := ⟨0, ⟨[⟨"f.py", 1, 100, 1⟩, ⟨"f.py", 2, 50, 1⟩]⟩, settingsC2⟩

/-- C2 counterexample: the ranks carried by `topEntries` followed by those of
`remainingEntries` are `[1, 1]`, not the claimed gap-free sequence
`1..totalFilteredEntryCount = [1, 2]` — `remaining_stats` re-enumerates from
scratch, so ranks restart inside it. -/
theorem c2_ranks_restart_counterexample :
    (viewC2.top_stats ++ viewC2.remaining_stats).map StatisticRun.position = [1, 1] ∧
    ¬ ((viewC2.top_stats ++ viewC2.remaining_stats).map StatisticRun.position =
        List.range' 1
          (viewC2.filtered_snapshot.statistics viewC2.settings.key_type.value).length) := by
  exact ⟨by decide, by decide⟩

/-- C2 amended: for every SnapshotView the two entry lists partition the
filtered entries (lengths sum to the total), and the ranks form the 1-based
gap-free sequence `1..length` WITHIN EACH list separately — the ranks of
`remainingEntries` restart at 1 rather than continuing after `topEntries`. -/
theorem c2_rank_partition (sr : SnapshotRun) :
    sr.top_stats.length + sr.remaining_stats.length =
        (sr.filtered_snapshot.statistics sr.settings.key_type.value).length ∧
    sr.top_stats.map StatisticRun.position = List.range' 1 sr.top_stats.length ∧
    sr.remaining_stats.map StatisticRun.position =
      List.range' 1 sr.remaining_stats.length := by
  refine ⟨?_, ?_, ?_⟩
  · rw [SnapshotRun.top_stats, SnapshotRun.remaining_stats, List.length_map,
      List.length_map, List.enum_length, List.enum_length, pyTake, pyDrop,
      List.length_take, List.length_drop]
    omega
  · rw [SnapshotRun.top_stats, enum_make_positions, List.length_map, List.enum_length]
  · rw [SnapshotRun.remaining_stats, enum_make_positions, List.length_map,
      List.enum_length]

/-! Claim C3. -/

/-- C3 counterexample: constructing `RunSettings` with `runCount = -1` AND
`rankLimit = -5` succeeds — the dataclass performs no validation and no
`InvalidConfiguration` (which appears nowhere in the source) is raised. -/
theorem c3_negative_settings_accepted :
    mkProfileRunSettings targetFn ["f.py"] (-1) .LINE_NUM (-5) true =
      .ok ⟨targetFn, ["f.py"], -1, .LINE_NUM, -5, true⟩ := rfl

/-- C3 amended: construction of `RunSettings` ALWAYS succeeds, storing the
given fields unchanged, for every `runCount` and `rankLimit` including
negative values; no validation and no exception exists. -/
theorem c3_construction_always_succeeds (func : PyFunc) (ffn : List String)
    (rc : Int) (kt : TraceKeyType) (lim : Int) (ex : Bool) :
    mkProfileRunSettings func ffn rc kt lim ex = .ok ⟨func, ffn, rc, kt, lim, ex⟩ := rfl

/-! Claim C4. -/

/-- Settings used by the C4 fixture: `run_count = 0` so the report holds a
single, empty snapshot view. -/
def settingsC4 : ProfileRunSettings := ⟨targetFn, ["f.py"], 0, .LINE_NUM, 10, true⟩

/-- C4: the claim says each SnapshotView's rendering appears exactly once and
no section is repeated.  On the code this fails: `ProfileRun.__str__` joins
the snapshot-views block TWICE and emits the heading
`# Profile Comparisons For …` TWICE (a copy-paste slip at lines 262–264 of
the source).  Concretely, in the report of a `run_count = 0` run the single
view's title `## Snapshot Before Run` occurs twice in the rendered text. -/
theorem c4_sections_duplicated :
    countOccur "## Snapshot Before Run"
        (ProfileRun.str env0 (profile_func settingsC4 [])) = 2 ∧
    countOccur "# Profile Comparisons For"
        (ProfileRun.str env0 (profile_func settingsC4 [])) = 2 := by
  exact ⟨by decide, by decide⟩

/-! Claim C5. -/

/-- C5: for `run_count = R ≥ 0` the report holds exactly `R + 1` snapshot
views, the view at index `i` carrying iteration index `i` and the traced
state after exactly `i` invocations of the target function (so the target
runs exactly once between consecutive snapshots, and not before snapshot 0),
and exactly `R` comparisons. -/
theorem c5_report_counts (settings : ProfileRunSettings) (init : List Trace)
    (R : Int) (hR : settings.run_count = R) (h0 : 0 ≤ R) :
    (profile_func settings init).snapshot_runs.length = R.toNat + 1 ∧
    (profile_func settings init).comparisons.length = R.toNat ∧
    ∀ i : Nat, i ≤ R.toNat →
      (profile_func settings init).snapshot_runs[i]? =
        some ⟨i, ⟨settings.func.run^[i] init⟩, settings⟩ := by
  subst hR
  refine ⟨?_, ?_, ?_⟩
  · rw [profile_func_runs]
    simp
  · rw [comparisons_length, profile_func_runs]
    simp
  · intro i hi
    rw [profile_func_runs]
    cases i with
    | zero => simp
    | succ j =>
      rw [List.getElem?_cons_succ, List.getElem?_map, List.getElem?_range (by omega)]
      rfl

/-- Settings used by the C5 witness: `run_count = 2`. -/
def settingsC5 : ProfileRunSettings := ⟨targetFn, ["f.py"], 2, .LINE_NUM, 10, true⟩

/-- Witness for C5 at `run_count = 2`: three snapshot views, two
comparisons. -/
theorem c5_report_counts_witness :
    settingsC5.run_count = 2 ∧ 0 ≤ (2 : Int) ∧
    ((profile_func settingsC5 []).snapshot_runs.length = (2 : Int).toNat + 1 ∧
      (profile_func settingsC5 []).comparisons.length = (2 : Int).toNat ∧
      ∀ i : Nat, i ≤ (2 : Int).toNat →
        (profile_func settingsC5 []).snapshot_runs[i]? =
          some ⟨i, ⟨settingsC5.func.run^[i] []⟩, settingsC5⟩) :=
  ⟨rfl, by decide, c5_report_counts settingsC5 [] 2 rfl (by decide)⟩

/-! Claim C6. -/

/-- Entry whose source location `gen.py:5` has no resolvable line text in
`env0`'s (empty) source table. -/
def statC6 : StatisticRun := StatisticRun.make 0 ⟨⟨⟨"gen.py", 5⟩, 1⟩, 100, 1⟩

/-- C6: the claim says an entry whose source line text cannot be resolved is
rendered as the file-trace line alone, the line-text sub-line being omitted
entirely.  On the code this fails: `linecache.getline` returns the EMPTY
string (never `None`) for an unresolvable location, so the guard
`if line is not None` in `line_trace` is always true and rendering appends a
whitespace-only second line `"\t\t"`.  (The rest of the report is still
produced, as the claim says.) -/
theorem c6_blank_line_rendered :
    StatisticRun.line_trace env0 statC6 = some "\t\t" ∧
    StatisticRun.str env0 statC6 = StatisticRun.file_trace env0 statC6 ++ "\n\t\t" := by
  exact ⟨by decide, by decide⟩

/-! Claim C7. -/

/-- Decomposition of a rendered report at the `# Profile Comparisons For`
heading: the heading is always part of the joined output. -/
theorem str_has_comparisons_heading (env : Env) (p : ProfileRun) :
    ∃ pre post, ProfileRun.str env p =
      pre ++ ("# Profile Comparisons For " ++ p.func_name) ++ post := by
  unfold ProfileRun.str
  apply pyJoin_decomp
  simp

/-- C7 counterexample: with `run_count = 0` the report indeed has one view
and zero comparisons, but its rendered text is NOT free of "Comparison": the
heading `# Profile Comparisons For …` is printed unconditionally (twice, in
fact), so the substring "Comparison" occurs twice. -/
theorem c7_comparison_text_present :
    (profile_func settingsC4 []).snapshot_runs.length = 1 ∧
    (profile_func settingsC4 []).comparisons = [] ∧
    countOccur "Comparison" (ProfileRun.str env0 (profile_func settingsC4 [])) = 2 := by
  exact ⟨rfl, rfl, by decide⟩

/-- C7 amended: `run_count = 0` yields exactly one SnapshotView (iteration 0)
and zero comparisons, but the rendered text still contains the substring
"Comparison" (the `# Profile Comparisons For` heading is emitted even when
the comparison list is empty). -/
theorem c7_run_count_zero (settings : ProfileRunSettings) (env : Env)
    (init : List Trace) (h : settings.run_count = 0) :
    (profile_func settings init).snapshot_runs.length = 1 ∧
    (profile_func settings init).comparisons = [] ∧
    containsStr (ProfileRun.str env (profile_func settings init)) "Comparison" := by
  have h1 : (profile_func settings init).snapshot_runs.length = 1 := by
    rw [profile_func_runs, h]
    rfl
  refine ⟨h1, ?_, ?_⟩
  · rw [ProfileRun.comparisons, h1]
    rfl
  · obtain ⟨pre, post, hp⟩ := str_has_comparisons_heading env (profile_func settings init)
    refine ⟨pre ++ "# Profile ", "s For " ++ (profile_func settings init).func_name ++ post, ?_⟩
    rw [hp, show ("# Profile Comparisons For " : String) =
      "# Profile " ++ "Comparison" ++ "s For " from by decide]
    simp only [String.append_assoc]

/-- Witness for C7's amended statement at concrete settings with
`run_count = 0`. -/
theorem c7_run_count_zero_witness :
    settingsC4.run_count = 0 ∧
    ((profile_func settingsC4 []).snapshot_runs.length = 1 ∧
      (profile_func settingsC4 []).comparisons = [] ∧
      containsStr (ProfileRun.str env0 (profile_func settingsC4 [])) "Comparison") :=
  ⟨rfl, c7_run_count_zero settingsC4 env0 [] rfl⟩

/-! Claim C8. -/

/-- C8: with `rankLimit = 0`, `topEntries` is empty, `remainingEntries`
carries all filtered entries, and the top-size summary renders as the empty
string rather than a zero value. -/
theorem c8_rank_limit_zero (sr : SnapshotRun) (env : Env)
    (h : sr.settings.limit = 0) :
    sr.top_stats = [] ∧
    sr.remaining_stats.map StatisticRun.statistic =
      sr.filtered_snapshot.statistics sr.settings.key_type.value ∧
    sr.top_stats_summary env = "" := by
  have ht : sr.top_stats = [] := by
    rw [SnapshotRun.top_stats, pyTake, h]
    simp [pySliceIdx]
  refine ⟨ht, ?_, ?_⟩
  · rw [SnapshotRun.remaining_stats, pyDrop, h]
    simp only [pySliceIdx, le_refl, if_pos, Int.toNat_zero, Nat.zero_min,
      List.drop_zero, enum_make_stats]
  · rw [SnapshotRun.top_stats_summary, ht]
    rfl

/-- Settings used by the C8 witness: `limit = 0`. -/
def settingsC8 : ProfileRunSettings := ⟨targetFn, ["f.py"], 3, .LINE_NUM, 0, true⟩

/-- Snapshot view used by the C8 witness: one filtered 100-byte group. -/
def viewC8 : SnapshotRun := ⟨0, ⟨[⟨"f.py", 1, 100, 1⟩]⟩, settingsC8⟩

/-- Witness for C8 on a view with one filtered entry. -/
theorem c8_rank_limit_zero_witness :
    viewC8.settings.limit = 0 ∧
    (viewC8.top_stats = [] ∧
      viewC8.remaining_stats.map StatisticRun.statistic =
        viewC8.filtered_snapshot.statistics viewC8.settings.key_type.value ∧
      viewC8.top_stats_summary env0 = "") :=
  ⟨rfl, c8_rank_limit_zero viewC8 env0 rfl⟩

/-! Claim C9. -/

/-- C9: for every SnapshotView — whatever the integer value of
`settings.limit`, negative values included — the statistics of `top_stats`
followed by those of `remaining_stats` are exactly the grouped-statistics
list of the filtered snapshot: the slice-based split is always a
partition. -/
theorem c9_slice_partition (sr : SnapshotRun) :
    sr.top_stats.map StatisticRun.statistic ++
        sr.remaining_stats.map StatisticRun.statistic =
      sr.filtered_snapshot.statistics sr.settings.key_type.value := by
  rw [SnapshotRun.top_stats, SnapshotRun.remaining_stats, enum_make_stats,
    enum_make_stats, pyTake_append_pyDrop]

/-! Claim C10. -/

/-- C10: with `run_count < 0` the loop body never executes: `profile_func`
returns without error a report with exactly one snapshot view (iteration 0,
holding the untouched initial state — the target function is never invoked)
and no comparisons, and its rendered text is identical to that of a
`run_count = 0` run. -/
theorem c10_negative_run_count (settings : ProfileRunSettings) (env : Env)
    (init : List Trace) (h : settings.run_count < 0) :
    (profile_func settings init).snapshot_runs = [⟨0, ⟨init⟩, settings⟩] ∧
    (profile_func settings init).comparisons = [] ∧
    ProfileRun.str env (profile_func settings init) =
      ProfileRun.str env (profile_func { settings with run_count := 0 } init) := by
  have h0 : settings.run_count.toNat = 0 := Int.toNat_of_nonpos (le_of_lt h)
  have e1 : profile_func settings init =
      ⟨[⟨0, ⟨init⟩, settings⟩], settings.func_file_names, settings.func.label⟩ := by
    unfold profile_func
    rw [h0]
    rfl
  refine ⟨by rw [e1], ?_, ?_⟩
  · rw [e1]
    rfl
  · rw [e1]
    rfl

/-- Settings used by the C10 witness: `run_count = -1`. -/
def settingsC10 : ProfileRunSettings := ⟨targetFn, ["f.py"], -1, .LINE_NUM, 10, true⟩

/-- Witness for C10 at `run_count = -1`. -/
theorem c10_negative_run_count_witness :
    settingsC10.run_count < 0 ∧
    ((profile_func settingsC10 []).snapshot_runs = [⟨0, ⟨[]⟩, settingsC10⟩] ∧
      (profile_func settingsC10 []).comparisons = [] ∧
      ProfileRun.str env0 (profile_func settingsC10 []) =
        ProfileRun.str env0 (profile_func { settingsC10 with run_count := 0 } [])) :=
  ⟨by decide, c10_negative_run_count settingsC10 env0 [] (by decide)⟩

end Profiler
